import Mathlib

/-!
Verification development for the TTAWin payment-processing core
(packages/payments) and for the frontend service bridge composable
(winapp `useServiceBridge`).

The payments package ships only its README in the surveyed tree; the
Rust implementation (lib.rs, stripe.rs, crypto.rs) is absent.  All
payment-core definitions below are therefore modelled from the
specification (doc comments starting with `Modelled from the spec:`),
faithful to its words: timestamps are naturals, monetary amounts in
fiat smallest-unit are integers, crypto amounts and exchange rates are
rationals.  The service bridge (`useServiceBridge`) is embedded
directly from its TypeScript source.
-/

/-- Association-list lookup: first entry whose key equals `a`. -/
def lookupA {α β : Type} [DecidableEq α] : List (α × β) → α → Option β
  | [], _ => none
  | (k, v) :: rest, a => if k = a then some v else lookupA rest a

/-- Association-list update of the first entry whose key equals `a`. -/
def setA {α β : Type} [DecidableEq α] : List (α × β) → α → β → List (α × β)
  | [], _, _ => []
  | (k, v) :: rest, a, b => if k = a then (k, b) :: rest else (k, v) :: setA rest a b

/-- Modelled from the spec: the enumerated, extensible set of supported
cryptocurrencies (missing crypto.rs). -/
inductive CryptoCurrency
  | Bitcoin
  | Ethereum
  | USDC
  | USDT
  | DAI
  deriving DecidableEq, Repr

/-- Modelled from the spec: the enumerated, extensible set of supported
blockchain networks (missing crypto.rs). -/
inductive BlockchainNetwork
  | Bitcoin
  | Ethereum
  | Polygon
  | BSC
  | Arbitrum
  | Optimism
  deriving DecidableEq, Repr

/-- Modelled from the spec: the tagged confirmation-status variant of the
missing crypto rail.  `Confirming` carries observed and required counts. -/
inductive ConfirmationStatus
  | Pending
  | Confirming (observed : Nat) (required : Nat)
  | Confirmed
  | Failed (reason : String)
  | Expired
  deriving DecidableEq, Repr

/-- Terminal statuses are `Confirmed`, `Failed` and `Expired`. -/
def ConfirmationStatus.isTerminal : ConfirmationStatus → Bool
  | .Confirmed => true
  | .Failed _ => true
  | .Expired => true
  | _ => false

/-- Observed confirmation count stored in a status (`Pending` counts as 0). -/
def ConfirmationStatus.observedCount : ConfirmationStatus → Nat
  | .Confirming observed _ => observed
  | _ => 0

/-- Modelled from the spec: the error taxonomy of the missing payments core. -/
inductive PaymentError
  | InvalidRequest
  | InvalidAddress
  | RequestExpired
  | RateUnavailable
  | InsufficientBalance
  | DuplicateWallet
  | UnknownTransaction
  | RailFailure (detail : String)
  deriving DecidableEq, Repr

/-- Modelled from the spec: the crypto payment details carried by a request
(missing crypto.rs).  Timestamps are naturals, amounts and rates rationals. -/
structure CryptoPaymentDetails where
  currency : CryptoCurrency
  network : BlockchainNetwork
  wallet_address : String
  amount_crypto : ℚ
  exchange_rate : ℚ
  expires_at : Nat
  deriving DecidableEq, Repr

/-- Modelled from the spec: per-network required-confirmation thresholds
(Bitcoin 6, Ethereum 12, Polygon 20; values for the networks the spec does
not name are representative). -/
def requiredConfirmations : BlockchainNetwork → Nat
  | .Bitcoin => 6
  | .Ethereum => 12
  | .Polygon => 20
  | .BSC => 15
  | .Arbitrum => 12
  | .Optimism => 12

/-- Modelled from the spec: a transaction-store record, keyed by settlement
identifier, holding status, last-updated timestamp and the originating
details (needed to re-validate expiry). -/
structure TransactionRecord where
  status : ConfirmationStatus
  last_updated : Nat
  details : CryptoPaymentDetails
  deriving DecidableEq, Repr

/-- The transaction store maps settlement identifiers to records. -/
abbrev TransactionStore := List (String × TransactionRecord)

/-- Modelled from the spec: `update_confirmations(settlement_id, observed_count)`
of the missing crypto rail.  No-op when terminal; expiry takes precedence over
the incoming count; otherwise clamp `observed` to
`max(observed, previous_observed)` and compare against the network's required
threshold. -/
def update_confirmations (store : TransactionStore) (id : String)
    (observed : Nat) (now : Nat) :
    Except PaymentError (ConfirmationStatus × TransactionStore) :=
  match lookupA store id with
  | none => .error .UnknownTransaction
  | some record =>
    if record.status.isTerminal then
      .ok (record.status, store)
    else if record.details.expires_at < now then
      .ok (.Expired, setA store id { record with status := .Expired, last_updated := now })
    else
      let obs := max observed record.status.observedCount
      let req := requiredConfirmations record.details.network
      let newStatus := if req ≤ obs then ConfirmationStatus.Confirmed
                       else ConfirmationStatus.Confirming obs req
      .ok (newStatus, setA store id { record with status := newStatus, last_updated := now })

/-- Delivers a sequence of observed counts to one record, collecting the
status returned after each update (stopping at the first error). -/
def runConfirmationSequence (store : TransactionStore) (id : String)
    (counts : List Nat) (now : Nat) : List ConfirmationStatus :=
  match counts with
  | [] => []
  | c :: rest =>
    match update_confirmations store id c now with
    | .ok (st, store2) => st :: runConfirmationSequence store2 id rest now
    | .error _ => []

/-- Concrete crypto payment details used by the monotonicity scenario:
a Bitcoin-network payment that expires at time 1000. -/
def demoDetails : CryptoPaymentDetails :=
  { currency := .Bitcoin
    network := .Bitcoin
    wallet_address := "bc1qw508d6qejxtdg4y5r3zarvary0c5xw7kv8f3t4"
    amount_crypto := 1/1000
    exchange_rate := 45000
    expires_at := 1000 }

/-- Concrete store holding one pending record on the Bitcoin network. -/
def demoStore : TransactionStore :=
  [("tx1", { status := .Pending, last_updated := 0, details := demoDetails })]

/-- Concrete store holding one confirmed (terminal) record. -/
def terminalStore : TransactionStore :=
  [("tx9", { status := .Confirmed, last_updated := 5, details := demoDetails })]

/-- Rounds a rational to the nearest integer, halves away from zero for
nonnegative inputs (the spec's `round` on nonnegative amounts). -/
def roundQ (q : ℚ) : ℤ := ⌊q + 1/2⌋

/-- Modelled from the spec: the card-rail fee model of the missing stripe.rs,
`processing_fee = round(amount * 0.029) + 30`, plus `round(amount * 0.01)`
for a foreign-issued card.  Since `amount` is an integer number of cents,
`round(amount * 29/1000)` is computed exactly as `(amount * 29 + 500) / 1000`
in integer arithmetic (round half up; amounts are nonnegative). -/
def stripeProcessingFee (amount : Nat) (cardForeign : Bool) : ℤ :=
  (((amount * 29 + 500) / 1000 + 30 +
    (if cardForeign then (amount * 10 + 500) / 1000 else 0) : Nat) : ℤ)

/-- Modelled from the spec: the per-network fixed network-fee table of the
missing crypto rail, in crypto-currency units (Bitcoin 0.0001, Ethereum
0.005, Polygon 0.0001; the spec leaves the remaining networks approximate). -/
def networkFeeTable : BlockchainNetwork → ℚ
  | .Bitcoin => 1/10000
  | .Ethereum => 5/1000
  | .Polygon => 1/10000
  | .BSC => 1/10000
  | .Arbitrum => 1/10000
  | .Optimism => 1/10000

/-- Modelled from the spec: the payment-fees record.  `network_fee` is in
crypto units, `processing_fee` and `total_fee` in fiat smallest-unit. -/
structure PaymentFees where
  network_fee : ℚ
  processing_fee : ℤ
  total_fee : ℤ
  deriving DecidableEq, Repr

/-- Modelled from the spec: crypto fee computation of the missing crypto
rail — `processing_fee = round(amount_crypto * 0.01 * rate)`, and
`total_fee` adds the network fee normalized to fiat smallest-unit. -/
def calculateCryptoFees (details : CryptoPaymentDetails) (rate : ℚ) : PaymentFees :=
  let nf := networkFeeTable details.network
  let pf := roundQ (details.amount_crypto * rate * (1/100))
  { network_fee := nf, processing_fee := pf, total_fee := pf + roundQ (nf * rate) }

/-- Hexadecimal digit test used by Ethereum-family address validation. -/
def isHexChar (c : Char) : Bool :=
  c.isDigit || ('a' ≤ c && c ≤ 'f') || ('A' ≤ c && c ≤ 'F')

/-- Modelled from the spec: Ethereum-family address grammar of the missing
crypto rail — exactly 42 characters, a 0x prefix, then 40 hex digits
(checked on the character list so it evaluates in the kernel). -/
def validateEthereumAddress (addr : String) : Bool :=
  decide (addr.length = 42) &&
  (match addr.data with
   | '0' :: 'x' :: rest => rest.all isHexChar
   | _ => false)

/-- Base58 alphabet test (alphanumeric without 0, O, I, l). -/
def isBase58Char (c : Char) : Bool :=
  c.isAlphanum && !(c == '0' || c == 'O' || c == 'I' || c == 'l')

/-- Modelled from the spec: Bitcoin-family address grammar of the missing
crypto rail — base58 P2PKH/P2SH forms (leading 1 or 3, length-checked) or
Bech32 `bc1` forms; the Bech32 checksum itself is abstracted to its
character set. -/
def validateBitcoinAddress (addr : String) : Bool :=
  (decide (26 ≤ addr.length) && decide (addr.length ≤ 35) &&
    (match addr.data with
     | '1' :: _ => true
     | '3' :: _ => true
     | _ => false) && addr.data.all isBase58Char) ||
  (decide (14 ≤ addr.length) && decide (addr.length ≤ 74) &&
    (match addr.data with
     | 'b' :: 'c' :: '1' :: rest => rest.all (fun c => c.isDigit || c.isLower)
     | _ => false))

/-- Ethereum-family membership: every supported network except Bitcoin. -/
def isEthereumFamily : BlockchainNetwork → Bool
  | .Bitcoin => false
  | _ => true

/-- Modelled from the spec: network-dispatched address validation. -/
def validateAddress (network : BlockchainNetwork) (addr : String) : Bool :=
  if isEthereumFamily network then validateEthereumAddress addr
  else validateBitcoinAddress addr

/-- Modelled from the spec: the polymorphic payment-method selector. -/
inductive PaymentMethod
  | Card
  | Crypto (details : CryptoPaymentDetails)
  deriving DecidableEq, Repr

/-- Modelled from the spec: the unified payment request. -/
structure PaymentRequest where
  amount : Nat
  currency : String
  description : Option String
  customer_email : Option String
  payment_method : PaymentMethod
  metadata : List (String × String)
  deriving DecidableEq, Repr

/-- Modelled from the spec: the unified payment result snapshot. -/
structure PaymentResult where
  success : Bool
  payment_intent_id : Option String
  transaction_hash : Option String
  client_secret : Option String
  error_message : Option String
  payment_method : PaymentMethod
  confirmation_status : ConfirmationStatus
  fees : PaymentFees
  created_at : Nat
  deriving DecidableEq, Repr

/-- Modelled from the spec: a wallet entry (currency, address, balance). -/
structure WalletInfo where
  currency : CryptoCurrency
  address : String
  balance : ℚ
  deriving DecidableEq, Repr

/-- Modelled from the spec: the mutable state owned by the payment service —
price-feed cache, transaction store, card-intent snapshots, wallets, and a
counter from which fresh settlement identifiers are minted. -/
structure PaymentState where
  price_feeds : List (CryptoCurrency × ℚ)
  transactions : TransactionStore
  card_intents : List (String × ConfirmationStatus)
  wallets : List (CryptoCurrency × WalletInfo)
  next_id : Nat
  deriving DecidableEq, Repr

/-- Mints the card-rail intent identifier for counter value `n`. -/
def mintIntentId (n : Nat) : String := "pi_" ++ toString n

/-- Mints the crypto-rail transaction hash for counter value `n`. -/
def mintTxHash (n : Nat) : String := "0xtxhash" ++ toString n

/-- Modelled from the spec: the orchestrator `process_payment` of the missing
lib.rs — validates the request, dispatches by payment-method variant, and
wraps each rail's output into the common result shape.  The crypto rail
rejects an expired request, then an address failing its network grammar,
then resolves the cached rate (fee math uses the cached rate, never the
caller-quoted one), computes fees, and registers a `Pending` record under a
freshly minted settlement identifier.  The card-issuing locality flag is
supplied by the card rail. -/
def process_payment (st : PaymentState) (request : PaymentRequest)
    (cardForeign : Bool) (now : Nat) :
    Except PaymentError PaymentResult × PaymentState :=
  if request.amount = 0 then (.error .InvalidRequest, st)
  else if request.currency = "" then (.error .InvalidRequest, st)
  else
    match request.payment_method with
    | .Card =>
      let fee := stripeProcessingFee request.amount cardForeign
      let fees : PaymentFees := { network_fee := 0, processing_fee := fee, total_fee := fee }
      let intentId := mintIntentId st.next_id
      let result : PaymentResult :=
        { success := true
          payment_intent_id := some intentId
          transaction_hash := none
          client_secret := some (intentId ++ "_secret")
          error_message := none
          payment_method := .Card
          confirmation_status := .Pending
          fees := fees
          created_at := now }
      (.ok result,
       { st with
           card_intents := (intentId, ConfirmationStatus.Pending) :: st.card_intents
           next_id := st.next_id + 1 })
    | .Crypto details =>
      if details.expires_at ≤ now then (.error .RequestExpired, st)
      else if validateAddress details.network details.wallet_address = false then
        (.error .InvalidAddress, st)
      else
        match lookupA st.price_feeds details.currency with
        | none => (.error .RateUnavailable, st)
        | some rate =>
          let fees := calculateCryptoFees details rate
          let hash := mintTxHash st.next_id
          let record : TransactionRecord :=
            { status := .Pending, last_updated := now, details := details }
          let result : PaymentResult :=
            { success := true
              payment_intent_id := none
              transaction_hash := some hash
              client_secret := none
              error_message := none
              payment_method := .Crypto details
              confirmation_status := .Pending
              fees := fees
              created_at := now }
          (.ok result,
           { st with
               transactions := (hash, record) :: st.transactions
               next_id := st.next_id + 1 })

/-- Modelled from the spec: `check_payment_status(result)` — re-reads the
transaction store (crypto) or the cached card-intent snapshot (card) through
the settlement identifier recorded in the prior result.  It is a pure read:
no state is produced, so it is side-effect-free on the payment itself. -/
def check_payment_status (st : PaymentState) (result : PaymentResult) :
    Except PaymentError ConfirmationStatus :=
  match result.transaction_hash with
  | some hash =>
    match lookupA st.transactions hash with
    | some record => .ok record.status
    | none => .error .UnknownTransaction
  | none =>
    match result.payment_intent_id with
    | some intentId =>
      match lookupA st.card_intents intentId with
      | some status => .ok status
      | none => .error .UnknownTransaction
    | none => .error .InvalidRequest

/-- Modelled from the spec: Wallet Manager `debit(currency, amount)` — fails
with `InsufficientBalance` when the debit would drive the balance negative
(a currency with no registered wallet has balance zero), leaving every
balance unchanged; otherwise subtracts the amount. -/
def debit (wallets : List (CryptoCurrency × WalletInfo))
    (currency : CryptoCurrency) (amount : ℚ) :
    Except PaymentError Unit × List (CryptoCurrency × WalletInfo) :=
  match lookupA wallets currency with
  | none => (.error .InsufficientBalance, wallets)
  | some w =>
    if w.balance < amount then (.error .InsufficientBalance, wallets)
    else (.ok (), setA wallets currency { w with balance := w.balance - amount })

/-- Concrete crypto details carrying a malformed Ethereum-family address. -/
def badAddrDetails : CryptoPaymentDetails :=
  { currency := .Ethereum
    network := .Ethereum
    wallet_address := "not-an-address"
    amount_crypto := 3/10000
    exchange_rate := 3000
    expires_at := 3600 }

/-- Concrete service state with one cached rate and empty stores. -/
def ethDemoState : PaymentState :=
  { price_feeds := [(CryptoCurrency.Ethereum, 3000)]
    transactions := []
    card_intents := []
    wallets := []
    next_id := 0 }

/-- Concrete crypto request with the malformed address. -/
def badAddrRequest : PaymentRequest :=
  { amount := 45000
    currency := "usd"
    description := none
    customer_email := none
    payment_method := .Crypto badAddrDetails
    metadata := [] }

/-- Concrete Bitcoin-network crypto details with the spec scenario's
address "not-an-address". -/
def badBtcDetails : CryptoPaymentDetails :=
  { currency := .Bitcoin
    network := .Bitcoin
    wallet_address := "not-an-address"
    amount_crypto := 1/1000
    exchange_rate := 45000
    expires_at := 3600 }

/-- Concrete Bitcoin-network crypto request with the malformed address. -/
def badBtcRequest : PaymentRequest :=
  { amount := 45000
    currency := "usd"
    description := none
    customer_email := none
    payment_method := .Crypto badBtcDetails
    metadata := [] }

/-- Concrete empty service state used by the card-rail scenarios. -/
def demoCardState : PaymentState :=
  { price_feeds := [], transactions := [], card_intents := [], wallets := [], next_id := 0 }

/-- Concrete domestic card request for 10000 cents. -/
def demoCardRequest : PaymentRequest :=
  { amount := 10000
    currency := "usd"
    description := none
    customer_email := none
    payment_method := .Card
    metadata := [] }

/-- Concrete result `process_payment` produces for `demoCardRequest`. -/
def demoCardResult : PaymentResult :=
  { success := true
    payment_intent_id := some "pi_0"
    transaction_hash := none
    client_secret := some "pi_0_secret"
    error_message := none
    payment_method := .Card
    confirmation_status := .Pending
    fees := { network_fee := 0, processing_fee := 320, total_fee := 320 }
    created_at := 0 }

/-- Concrete state after settling `demoCardRequest`. -/
def demoCardState2 : PaymentState :=
  { price_feeds := [], transactions := []
    card_intents := [("pi_0", ConfirmationStatus.Pending)]
    wallets := [], next_id := 1 }

/-- Concrete Bitcoin wallet with zero balance. -/
def zeroBtcWallet : WalletInfo :=
  { currency := .Bitcoin
    address := "1A1zP1eP5QGefi2DMPTfTL5SLmv7DivfNa"
    balance := 0 }

/-- Embedded from the `useServiceBridge` composable: its reactive state —
`isServiceAvailable`, `isLoading` and `lastError` refs. -/
structure BridgeState where
  isServiceAvailable : Bool
  isLoading : Bool
  lastError : Option String
  deriving DecidableEq, Repr

/-- Embedded from the `useServiceBridge` composable: the `ServiceBridgeError`
class thrown on a failed backend call (message plus optional code). -/
structure ServiceBridgeError where
  message : String
  code : Option String
  deriving DecidableEq, Repr

/-- The invoke-backed operations returned by `useServiceBridge`. -/
inductive BridgeOp
  | checkServiceHealth
  | getServiceStatus
  | getAIModels
  | analyzeContent
  | processOCR
  | getPaymentMethods
  | processPayment
  | getConfiguration
  | updateConfiguration
  | startAudioStream
  | stopAudioStream
  | getStreamStatus
  deriving DecidableEq, Repr

/-- The message text each operation's catch block prepends to the error. -/
def errorTextOf : BridgeOp → String
  | .checkServiceHealth => "Service health check failed: "
  | .getServiceStatus => "Failed to get service status: "
  | .getAIModels => "Failed to get AI models: "
  | .analyzeContent => "Content analysis failed: "
  | .processOCR => "OCR processing failed: "
  | .getPaymentMethods => "Failed to get payment methods: "
  | .processPayment => "Payment processing failed: "
  | .getConfiguration => "Configuration retrieval failed: "
  | .updateConfiguration => "Configuration update failed: "
  | .startAudioStream => "Audio stream start failed: "
  | .stopAudioStream => "Audio stream stop failed: "
  | .getStreamStatus => "Failed to get stream status: "

/-- The `ServiceBridgeError` thrown by operation `op` for backend error `e`
(the constructor is called with the message only, so `code` is unset). -/
def mkBridgeError (op : BridgeOp) (e : String) : ServiceBridgeError :=
  { message := errorTextOf op ++ e, code := none }

/-- The `hasError` computed property: `lastError` is non-null. -/
def hasError (s : BridgeState) : Bool := s.lastError.isSome

/-- Embedded from the `useServiceBridge` composable: the common shape of all
of its invoke-backed operations.  The body sets `isLoading` and clears
`lastError`, awaits `invoke` (whose settled outcome is the `outcome`
argument; request payloads only feed `invoke` and cannot affect the state
contract), and returns the response on success — `checkServiceHealth`
additionally marks the service available.  On rejection the catch block
records the raw error in `lastError` and throws the operation's
`ServiceBridgeError` (`checkServiceHealth` marks the service unavailable),
and the finally block clears `isLoading` on every path. -/
def runBridgeOp (op : BridgeOp) (s : BridgeState)
    (outcome : Except String String) :
    BridgeState × Except ServiceBridgeError String :=
  match outcome with
  | .ok response =>
    ({ isServiceAvailable :=
         if op = .checkServiceHealth then true else s.isServiceAvailable
       isLoading := false
       lastError := none },
     .ok response)
  | .error e =>
    ({ isServiceAvailable :=
         if op = .checkServiceHealth then false else s.isServiceAvailable
       isLoading := false
       lastError := some e },
     .error (mkBridgeError op e))

theorem lookupA_mem {α β : Type} [DecidableEq α] (l : List (α × β)) (a : α) (b : β)
    (h : lookupA l a = some b) : (a, b) ∈ l := by
  induction l with
  | nil => simp [lookupA] at h
  | cons p rest ih =>
    obtain ⟨k, v⟩ := p
    by_cases hk : k = a
    · subst hk
      simp only [lookupA, if_pos] at h
      injection h with h
      subst h
      exact List.mem_cons_self _ _
    · simp only [lookupA, if_neg hk] at h
      exact List.mem_cons_of_mem _ (ih h)

theorem roundQ_nonneg (q : ℚ) (h : 0 ≤ q) : 0 ≤ roundQ q := by
  unfold roundQ
  rw [Int.le_floor]
  push_cast
  linarith

theorem networkFeeTable_nonneg (network : BlockchainNetwork) :
    0 ≤ networkFeeTable network := by
  cases network <;> norm_num [networkFeeTable]

/-- C1: for a record that is neither terminal nor expired, an update with a
count still below threshold stores `Confirming (max observed previous)`
— the observed count never decreases — and the sequence [2, 1, 5] against a
required threshold of 6 yields Confirming 2 6, Confirming 2 6, Confirming 5 6. -/
theorem update_confirmations_monotonic_clamp (store : TransactionStore)
    (id : String) (observed now : Nat) (record : TransactionRecord)
    (h1 : lookupA store id = some record)
    (h2 : record.status.isTerminal = false)
    (h3 : now ≤ record.details.expires_at)
    (h4 : max observed record.status.observedCount <
          requiredConfirmations record.details.network) :
    update_confirmations store id observed now =
      .ok (.Confirming (max observed record.status.observedCount)
             (requiredConfirmations record.details.network),
           setA store id
             { record with
                 status := .Confirming (max observed record.status.observedCount)
                             (requiredConfirmations record.details.network)
                 last_updated := now }) ∧
    record.status.observedCount ≤ max observed record.status.observedCount ∧
    runConfirmationSequence demoStore "tx1" [2, 1, 5] 0 =
      [.Confirming 2 6, .Confirming 2 6, .Confirming 5 6] := by
  refine ⟨?_, Nat.le_max_right _ _, by decide⟩
  unfold update_confirmations
  rw [h1]
  simp only [h2, Bool.false_eq_true, if_false, Nat.not_lt.mpr h3, if_neg (Nat.not_lt.mpr h3),
    if_neg (Nat.not_le.mpr h4)]

/-- Witness for C1 at the concrete pending Bitcoin record of `demoStore`. -/
theorem update_confirmations_monotonic_clamp_witness :
    update_confirmations demoStore "tx1" 3 0 =
      .ok (.Confirming (max 3 ((ConfirmationStatus.Pending).observedCount))
             (requiredConfirmations demoDetails.network),
           setA demoStore "tx1"
             { status := .Confirming (max 3 ((ConfirmationStatus.Pending).observedCount))
                           (requiredConfirmations demoDetails.network)
               last_updated := 0
               details := demoDetails }) ∧
    (ConfirmationStatus.Pending).observedCount ≤ max 3 ((ConfirmationStatus.Pending).observedCount) ∧
    runConfirmationSequence demoStore "tx1" [2, 1, 5] 0 =
      [.Confirming 2 6, .Confirming 2 6, .Confirming 5 6] :=
  update_confirmations_monotonic_clamp demoStore "tx1" 3 0
    { status := .Pending, last_updated := 0, details := demoDetails }
    rfl (by decide) (by decide) (by decide)

/-- C2: once a record is terminal, `update_confirmations` is a silent no-op:
it returns the current status, signals no error, and leaves the store
unchanged, for any observed count and any time — hence repeating the call is
idempotent. -/
theorem update_confirmations_terminal_noop (store : TransactionStore)
    (id : String) (observed now : Nat) (record : TransactionRecord)
    (h1 : lookupA store id = some record)
    (h2 : record.status.isTerminal = true) :
    update_confirmations store id observed now = .ok (record.status, store) := by
  unfold update_confirmations
  rw [h1]
  simp [h2]

/-- Witness for C2 at a concrete confirmed record. -/
theorem update_confirmations_terminal_noop_witness :
    update_confirmations terminalStore "tx9" 99 2000 =
      .ok (.Confirmed, terminalStore) :=
  update_confirmations_terminal_noop terminalStore "tx9" 99 2000
    { status := .Confirmed, last_updated := 5, details := demoDetails }
    rfl (by decide)

/-- C3: a non-terminal record whose expiry lies in the past transitions to
`Expired` when updated, whatever the supplied observed count — in particular
it never becomes `Confirmed`, even when the count reaches the threshold,
since the conclusion holds for every `observed`. -/
theorem update_confirmations_expiry_precedence (store : TransactionStore)
    (id : String) (observed now : Nat) (record : TransactionRecord)
    (h1 : lookupA store id = some record)
    (h2 : record.status.isTerminal = false)
    (h3 : record.details.expires_at < now) :
    update_confirmations store id observed now =
      .ok (.Expired, setA store id
             { record with status := .Expired, last_updated := now }) := by
  unfold update_confirmations
  rw [h1]
  simp [h2, h3]

/-- Witness for C3: the demo record (expires at 1000) updated at time 2000
with a count equal to the required threshold still expires. -/
theorem update_confirmations_expiry_precedence_witness :
    update_confirmations demoStore "tx1" 6 2000 =
      .ok (.Expired, setA demoStore "tx1"
             { status := .Expired, last_updated := 2000, details := demoDetails }) :=
  update_confirmations_expiry_precedence demoStore "tx1" 6 2000
    { status := .Pending, last_updated := 0, details := demoDetails }
    rfl (by decide) (by decide)

/-- C4: a crypto request whose wallet address fails its network family's
grammar — for the Ethereum family: 42 chars, a 0x prefix, 40 hex digits;
for the Bitcoin family the base58/Bech32 forms — is rejected with
`InvalidAddress`, and the whole service state — in particular the
transaction store — is returned unchanged: no record is created and the
fee-computation and registration steps are never reached. -/
theorem invalid_address_creates_nothing (st : PaymentState)
    (request : PaymentRequest) (details : CryptoPaymentDetails)
    (cardForeign : Bool) (now : Nat)
    (h1 : request.payment_method = .Crypto details)
    (h2 : request.amount ≠ 0)
    (h3 : request.currency ≠ "")
    (h4 : now < details.expires_at)
    (h5 : validateAddress details.network details.wallet_address = false) :
    process_payment st request cardForeign now = (.error .InvalidAddress, st) := by
  unfold process_payment
  simp only [h1, if_neg h2, if_neg h3]
  rw [if_neg (Nat.not_le.mpr h4), if_pos h5]

/-- Witness for C4: both the Ethereum-family malformed address and the spec
scenario's Bitcoin-network address "not-an-address" are rejected without
touching the state. -/
theorem invalid_address_creates_nothing_witness :
    process_payment ethDemoState badAddrRequest false 0 =
      (.error .InvalidAddress, ethDemoState) ∧
    process_payment ethDemoState badBtcRequest false 0 =
      (.error .InvalidAddress, ethDemoState) :=
  ⟨invalid_address_creates_nothing ethDemoState badAddrRequest badAddrDetails
     false 0 rfl (by decide) (by decide) (by decide) rfl,
   invalid_address_creates_nothing ethDemoState badBtcRequest badBtcDetails
     false 0 rfl (by decide) (by decide) (by decide) rfl⟩

/-- C5: whenever `process_payment` succeeds — on either rail — the returned
fees satisfy `total_fee ≥ processing_fee ≥ 0`, provided every cached rate
and the requested crypto amount are nonnegative. -/
theorem fees_invariant (st : PaymentState) (request : PaymentRequest)
    (cardForeign : Bool) (now : Nat) (result : PaymentResult) (st2 : PaymentState)
    (hrates : ∀ c r, (c, r) ∈ st.price_feeds → 0 ≤ r)
    (hamount : ∀ d, request.payment_method = .Crypto d → 0 ≤ d.amount_crypto)
    (h : process_payment st request cardForeign now = (.ok result, st2)) :
    result.fees.processing_fee ≤ result.fees.total_fee ∧
    0 ≤ result.fees.processing_fee := by
  unfold process_payment at h
  by_cases h0 : request.amount = 0
  · simp [h0] at h
  · rw [if_neg h0] at h
    by_cases hc : request.currency = ""
    · simp [hc] at h
    · rw [if_neg hc] at h
      cases hm : request.payment_method with
      | Card =>
        simp only [hm] at h
        simp only [Prod.mk.injEq, Except.ok.injEq] at h
        obtain ⟨hres, _⟩ := h
        subst hres
        refine ⟨le_refl _, ?_⟩
        simp only [stripeProcessingFee]
        exact Int.natCast_nonneg _
      | Crypto details =>
        simp only [hm] at h
        by_cases hexp : details.expires_at ≤ now
        · simp [hexp] at h
        · rw [if_neg hexp] at h
          by_cases hv : validateAddress details.network details.wallet_address = false
          · simp [hv] at h
          · rw [if_neg hv] at h
            cases hr : lookupA st.price_feeds details.currency with
            | none => rw [hr] at h; simp at h
            | some rate =>
              rw [hr] at h
              simp only [Prod.mk.injEq, Except.ok.injEq] at h
              obtain ⟨hres, _⟩ := h
              subst hres
              have hrate : 0 ≤ rate := hrates _ _ (lookupA_mem _ _ _ hr)
              have hamt : 0 ≤ details.amount_crypto := hamount details hm
              have hpf : 0 ≤ roundQ (details.amount_crypto * rate * (1/100)) := by
                refine roundQ_nonneg _ ?_
                have := mul_nonneg (mul_nonneg hamt hrate) (by norm_num : (0:ℚ) ≤ 1/100)
                exact this
              have hnf : 0 ≤ roundQ (networkFeeTable details.network * rate) :=
                roundQ_nonneg _ (mul_nonneg (networkFeeTable_nonneg _) hrate)
              constructor
              · simp only [calculateCryptoFees]
                omega
              · simpa [calculateCryptoFees] using hpf

/-- Witness for C5 at the concrete domestic card payment. -/
theorem fees_invariant_witness :
    demoCardResult.fees.processing_fee ≤ demoCardResult.fees.total_fee ∧
    0 ≤ demoCardResult.fees.processing_fee :=
  fees_invariant demoCardState demoCardRequest false 0 demoCardResult demoCardState2
    (fun c r hmem => absurd hmem (List.not_mem_nil (c, r)))
    (fun _ hd => PaymentMethod.noConfusion hd)
    rfl

/-- C6: for every card-rail payment the processing fee is the pure function
`round(amount * 0.029) + 30`, plus `round(amount * 0.01)` when the card's
issuing region is foreign, of the amount and the locality flag alone
(computed exactly in integer cents); amount 10000 with a domestic card
yields 320. -/
theorem card_processing_fee_formula (st : PaymentState) (request : PaymentRequest)
    (cardForeign : Bool) (now : Nat) (result : PaymentResult) (st2 : PaymentState)
    (hm : request.payment_method = .Card)
    (h : process_payment st request cardForeign now = (.ok result, st2)) :
    result.fees.processing_fee =
      (((request.amount * 29 + 500) / 1000 + 30 +
        (if cardForeign then (request.amount * 10 + 500) / 1000 else 0) : Nat) : ℤ) ∧
    stripeProcessingFee 10000 false = 320 := by
  refine ⟨?_, by decide⟩
  unfold process_payment at h
  by_cases h0 : request.amount = 0
  · simp [h0] at h
  · rw [if_neg h0] at h
    by_cases hc : request.currency = ""
    · simp [hc] at h
    · rw [if_neg hc] at h
      simp only [hm] at h
      simp only [Prod.mk.injEq, Except.ok.injEq] at h
      obtain ⟨hres, _⟩ := h
      subst hres
      rfl

/-- Witness for C6 at the concrete domestic card payment of 10000 cents. -/
theorem card_processing_fee_formula_witness :
    demoCardResult.fees.processing_fee =
      (((demoCardRequest.amount * 29 + 500) / 1000 + 30 +
        (if false then (demoCardRequest.amount * 10 + 500) / 1000 else 0) : Nat) : ℤ) ∧
    stripeProcessingFee 10000 false = 320 :=
  card_processing_fee_formula demoCardState demoCardRequest false 0
    demoCardResult demoCardState2 rfl rfl

/-- C7: immediately after a successful `process_payment`, reading the status
back with `check_payment_status` on the produced result returns exactly the
`ConfirmationStatus` recorded in that result; the read is a pure function
producing no state, so it mutates no payment state. -/
theorem status_round_trip (st : PaymentState) (request : PaymentRequest)
    (cardForeign : Bool) (now : Nat) (result : PaymentResult) (st2 : PaymentState)
    (h : process_payment st request cardForeign now = (.ok result, st2)) :
    check_payment_status st2 result = .ok result.confirmation_status := by
  unfold process_payment at h
  by_cases h0 : request.amount = 0
  · simp [h0] at h
  · rw [if_neg h0] at h
    by_cases hc : request.currency = ""
    · simp [hc] at h
    · rw [if_neg hc] at h
      cases hm : request.payment_method with
      | Card =>
        simp only [hm] at h
        simp only [Prod.mk.injEq, Except.ok.injEq] at h
        obtain ⟨hres, hst⟩ := h
        subst hres
        subst hst
        simp [check_payment_status, lookupA]
      | Crypto details =>
        simp only [hm] at h
        by_cases hexp : details.expires_at ≤ now
        · simp [hexp] at h
        · rw [if_neg hexp] at h
          by_cases hv : validateAddress details.network details.wallet_address = false
          · simp [hv] at h
          · rw [if_neg hv] at h
            cases hr : lookupA st.price_feeds details.currency with
            | none => rw [hr] at h; simp at h
            | some rate =>
              rw [hr] at h
              simp only [Prod.mk.injEq, Except.ok.injEq] at h
              obtain ⟨hres, hst⟩ := h
              subst hres
              subst hst
              simp [check_payment_status, lookupA]

/-- Witness for C7 at the concrete card payment. -/
theorem status_round_trip_witness :
    check_payment_status demoCardState2 demoCardResult =
      .ok demoCardResult.confirmation_status :=
  status_round_trip demoCardState demoCardRequest false 0
    demoCardResult demoCardState2 rfl

/-- C8: every result produced by `process_payment` populates exactly one
rail-specific settlement identifier — a card result carries an intent id and
no transaction hash, a crypto result a transaction hash and no intent id;
never both, never neither. -/
theorem settlement_identifier_xor (st : PaymentState) (request : PaymentRequest)
    (cardForeign : Bool) (now : Nat) (result : PaymentResult) (st2 : PaymentState)
    (h : process_payment st request cardForeign now = (.ok result, st2)) :
    (result.payment_intent_id ≠ none ∧ result.transaction_hash = none) ∨
    (result.payment_intent_id = none ∧ result.transaction_hash ≠ none) := by
  unfold process_payment at h
  by_cases h0 : request.amount = 0
  · simp [h0] at h
  · rw [if_neg h0] at h
    by_cases hc : request.currency = ""
    · simp [hc] at h
    · rw [if_neg hc] at h
      cases hm : request.payment_method with
      | Card =>
        simp only [hm] at h
        simp only [Prod.mk.injEq, Except.ok.injEq] at h
        obtain ⟨hres, _⟩ := h
        subst hres
        exact Or.inl ⟨by simp, rfl⟩
      | Crypto details =>
        simp only [hm] at h
        by_cases hexp : details.expires_at ≤ now
        · simp [hexp] at h
        · rw [if_neg hexp] at h
          by_cases hv : validateAddress details.network details.wallet_address = false
          · simp [hv] at h
          · rw [if_neg hv] at h
            cases hr : lookupA st.price_feeds details.currency with
            | none => rw [hr] at h; simp at h
            | some rate =>
              rw [hr] at h
              simp only [Prod.mk.injEq, Except.ok.injEq] at h
              obtain ⟨hres, _⟩ := h
              subst hres
              exact Or.inr ⟨rfl, by simp⟩

/-- Witness for C8 at the concrete card payment. -/
theorem settlement_identifier_xor_witness :
    (demoCardResult.payment_intent_id ≠ none ∧ demoCardResult.transaction_hash = none) ∨
    (demoCardResult.payment_intent_id = none ∧ demoCardResult.transaction_hash ≠ none) :=
  settlement_identifier_xor demoCardState demoCardRequest false 0
    demoCardResult demoCardState2 rfl

/-- C9: `debit(currency, amount)` fails with `InsufficientBalance` whenever
the amount exceeds the currency's current balance, leaving every wallet
balance unchanged; in particular `debit(BTC, 1)` on a zero-balance wallet
returns `InsufficientBalance`. -/
theorem debit_insufficient_balance (wallets : List (CryptoCurrency × WalletInfo))
    (currency : CryptoCurrency) (amount : ℚ) (w : WalletInfo)
    (h1 : lookupA wallets currency = some w)
    (h2 : w.balance < amount) :
    debit wallets currency amount = (.error .InsufficientBalance, wallets) ∧
    debit [(CryptoCurrency.Bitcoin, zeroBtcWallet)] CryptoCurrency.Bitcoin 1 =
      (.error .InsufficientBalance, [(CryptoCurrency.Bitcoin, zeroBtcWallet)]) := by
  constructor
  · simp only [debit, h1]
    rw [if_pos h2]
  · have hz : zeroBtcWallet.balance < (1 : ℚ) := by norm_num [zeroBtcWallet]
    simp [debit, lookupA, hz]

/-- Witness for C9 at the concrete zero-balance Bitcoin wallet. -/
theorem debit_insufficient_balance_witness :
    debit [(CryptoCurrency.Bitcoin, zeroBtcWallet)] CryptoCurrency.Bitcoin 1 =
      (.error .InsufficientBalance, [(CryptoCurrency.Bitcoin, zeroBtcWallet)]) ∧
    debit [(CryptoCurrency.Bitcoin, zeroBtcWallet)] CryptoCurrency.Bitcoin 1 =
      (.error .InsufficientBalance, [(CryptoCurrency.Bitcoin, zeroBtcWallet)]) :=
  debit_insufficient_balance [(CryptoCurrency.Bitcoin, zeroBtcWallet)]
    CryptoCurrency.Bitcoin 1 zeroBtcWallet rfl zero_lt_one

/-- C10: every invoke-backed `useServiceBridge` operation leaves `isLoading`
false once settled, whatever the outcome; and whenever the underlying invoke
call rejects with `e`, the operation records `e` in `lastError` (so
`hasError` becomes true) and throws the corresponding `ServiceBridgeError`
instead of returning a value — a caller never receives a value from a
failed backend call. -/
theorem bridge_operation_error_contract (op : BridgeOp) (s : BridgeState)
    (outcome : Except String String) (e : String) :
    (runBridgeOp op s outcome).1.isLoading = false ∧
    (runBridgeOp op s (.error e)).1.lastError = some e ∧
    hasError (runBridgeOp op s (.error e)).1 = true ∧
    (runBridgeOp op s (.error e)).2 = .error (mkBridgeError op e) := by
  refine ⟨?_, rfl, rfl, rfl⟩
  cases outcome <;> rfl
